import Mathlib

/-!
Verification of the haystack preview pipeline scheduler
(src/haystack/preview/pipeline.py) and the MRKL agent
(src/haystack/nodes/prompt/mrkl_agent.py).

The scheduler and the agent are embedded shallowly: Python dicts become
association lists (OrderedDict semantics: assigning an existing key keeps
its position, a new key is appended at the tail), Python exceptions become
an explicit error value, and the async pipeline loop becomes a fuel-indexed
step function.  Helpers that live in the external canals package
(_check_max_loops, _calculate_action, _route_output,
_skip_downstream_unvisited_nodes) are modelled from the specification text,
as marked on each definition.
-/

set_option autoImplicit false
set_option maxRecDepth 4000

/-- Scalar payload carried through the pipeline. -/
abbrev Val := Nat

/-- A Python dict of named values, in insertion order. -/
abbrev Dict := List (String × Val)

/-- Lookup in an ordered dict (first matching key). -/
def odGet {α : Type} : List (String × α) → String → Option α
  | [], _ => none
  | (k, v) :: rest, key => if k == key then some v else odGet rest key

/-- Lookup with a default value. -/
def odGetD {α : Type} (m : List (String × α)) (key : String) (d : α) : α :=
  (odGet m key).getD d

/-- OrderedDict assignment: an existing key keeps its position and gets the
new value, a new key is appended at the tail. -/
def odSet {α : Type} : List (String × α) → String → α → List (String × α)
  | [], key, v => [(key, v)]
  | (k, w) :: rest, key, v =>
    if k == key then (key, v) :: rest else (k, w) :: odSet rest key v

/-- A raised Python exception: class name and message. -/
structure PyExc where
  excName : String
  msg : String
deriving DecidableEq, Repr

/-- Result of evaluating a piece of Python code: a value or a raised
exception. -/
inductive PyResult (α : Type) where
  | ok (a : α)
  | exc (e : PyExc)
deriving DecidableEq, Repr

/-- A pipeline component instance.  A sync component has a plain run method
whose body executes at call time; an async component has a coroutine run
method whose body executes only when the returned coroutine is awaited.
The Nat argument is the index of the call within one visit, so that
stateful or flaky behaviour across the two possible calls of a single
visit can be expressed. -/
inductive Component where
  | sync (run : Nat → Dict → PyResult Dict)
  | async (body : Nat → Dict → PyResult Dict)

/-- What ends up bound to the outputs variable of _arun_component: a dict,
or an un-awaited coroutine object when the TypeError fallback fires on an
async component. -/
inductive OutVal where
  | dict (d : Dict)
  | coroutine
deriving DecidableEq, Repr

/-- The inner try of _arun_component (pipeline.py lines 112 to 115):
try awaiting instance.run, and on TypeError call instance.run again
without awaiting.  Returns the result together with the number of times
run was called and the number of times the component body was executed.
For a sync component the awaited expression first calls run (executing the
body), and awaiting the returned dict raises TypeError, so the fallback
calls run a second time.  For an async component the first call builds a
coroutine and awaiting it executes the body; if the body raises TypeError
the fallback builds a second, never-awaited coroutine. -/
def awaitFallback : Component → Dict → PyResult OutVal × Nat × Nat
  | .sync run, inputs =>
    match run 0 inputs with
    | .ok _ =>
      match run 1 inputs with
      | .ok d2 => (.ok (.dict d2), 2, 2)
      | .exc e2 => (.exc e2, 2, 2)
    | .exc e =>
      if e.excName == "TypeError" then
        match run 1 inputs with
        | .ok d2 => (.ok (.dict d2), 2, 2)
        | .exc e2 => (.exc e2, 2, 2)
      else (.exc e, 1, 1)
  | .async body, inputs =>
    match body 0 inputs with
    | .ok d => (.ok (.dict d), 1, 1)
    | .exc e =>
      if e.excName == "TypeError" then (.ok .coroutine, 2, 1)
      else (.exc e, 1, 1)

/-- Single quote character, used in the wrapped error message. -/
def sQuote : String := String.singleton (Char.ofNat 39)

/-- Rendering of an input dict inside the wrapped error message,
abstracting the Python repr of the dict. -/
def dictRepr (d : Dict) : String :=
  "\x7b" ++ String.intercalate ", " (d.map (fun p => p.1 ++ ": " ++ toString p.2)) ++ "\x7d"

/-- The message built by _arun_component when a component raises
(pipeline.py lines 121 to 123). -/
def wrapMsg (name : String) (inputs : Dict) (e : PyExc) : String :=
  name ++ " raised " ++ sQuote ++ e.excName ++ ": " ++ e.msg ++ sQuote ++ " \nInputs: "
    ++ dictRepr inputs ++ "\n\nSee the stacktrace above for more information."

/-- The PipelineRuntimeError raised by _arun_component on component
failure. -/
def pipeErr (name : String) (inputs : Dict) (e : PyExc) : PyExc :=
  ⟨"PipelineRuntimeError", wrapMsg name inputs e⟩

/-- Outcome of one _arun_component call: the result, the visit counter
after the call, the number of calls to the run method and the number of
body executions. -/
structure CompRun where
  res : PyResult OutVal
  visits : Nat
  runCalls : Nat
  bodyExecs : Nat
deriving DecidableEq, Repr

/-- Pipeline._arun_component (pipeline.py lines 102 to 126): increment the
visit counter first, then run the component through the await fallback,
wrapping any escaping exception into a PipelineRuntimeError that carries
the component name and its inputs. -/
def arunComponent (c : Component) (name : String) (inputs : Dict) (v0 : Nat) : CompRun :=
  match awaitFallback c inputs with
  | (.ok out, calls, execs) => ⟨.ok out, v0 + 1, calls, execs⟩
  | (.exc e, calls, execs) => ⟨.exc (pipeErr name inputs e), v0 + 1, calls, execs⟩

/-- A labeled edge of the pipeline graph: the named output field of the
source node feeds the named input field of the destination node. -/
structure Edge where
  src : String
  srcField : String
  dst : String
  dstField : String
deriving DecidableEq, Repr

/-- A node of the pipeline graph: unique name, the component instance and
its maximum-visits limit (the loop guard of the spec data model). -/
structure Node where
  name : String
  comp : Component
  maxVisits : Nat

/-- The pipeline graph: named nodes plus the labeled edge set.  Cycles are
allowed. -/
structure Graph where
  nodes : List Node
  edges : List Edge

/-- First node with the given name. -/
def findNode (g : Graph) (n : String) : Option Node :=
  g.nodes.find? (fun nd => nd.name == n)

/-- The configured maximum-visits limit of a node. -/
def maxVisitsOf (g : Graph) (n : String) : Nat :=
  ((findNode g n).map Node.maxVisits).getD 0

/-- The component instance of a node. -/
def compOf (g : Graph) (n : String) : Option Component :=
  (findNode g n).map Node.comp

/-- Outgoing edges of a node. -/
def outEdges (g : Graph) (n : String) : List Edge :=
  g.edges.filter (fun e => e.src == n)

/-- Incoming edges of a node. -/
def inEdges (g : Graph) (n : String) : List Edge :=
  g.edges.filter (fun e => e.dst == n)

/-- The input fields a node needs, read off its incoming edges (the
declared inbound edges of the spec data model). -/
def requiredInputs (g : Graph) (n : String) : List String :=
  (inEdges g n).map Edge.dstField

/-- The inputs buffer: an ordered mapping from node name to its partial
input dict. -/
abbrev Buffer := List (String × Dict)

/-- The possible decisions for a popped node. -/
inductive NodeAction where
  | run
  | wait
  | skip
  | remove
deriving DecidableEq, Repr

/-- Modelled from the spec: canals Pipeline._calculate_action is not part
of this repository.  Spec section 4.2 step c: run when all required inputs
are present; wait when the node is missing a still-producible input, that
is, some upstream node that could still feed the missing field has not yet
run (visit counter zero); skip when no such upstream producer remains.
The remove action concerns stale duplicate queue entries, which this model
never creates, so it is not produced here. -/
def calculateAction (g : Graph) (name : String) (inputs : Dict) (_buffer : Buffer)
    (visits : List (String × Nat)) : NodeAction :=
  if (requiredInputs g name).all (fun r => (odGet inputs r).isSome) then .run
  else if (inEdges g name).any
      (fun e => (odGet inputs e.dstField).isNone && odGetD visits e.src 0 == 0) then .wait
  else .skip

/-- Modelled from the spec: canals _skip_downstream_unvisited_nodes is not
part of this repository.  Spec section 4.2 step c (skip): propagate the
skip to the downstream edges; each not-yet-visited successor that is not
already queued is appended to the buffer tail with no inputs, so that it
is itself popped and skipped in a later iteration. -/
def skipDownstream (g : Graph) (name : String) (visits : List (String × Nat))
    (buffer : Buffer) : Buffer :=
  (outEdges g name).foldl
    (fun b e =>
      if odGetD visits e.dst 0 == 0 && (odGet b e.dst).isNone then b ++ [(e.dst, [])]
      else b)
    buffer

/-- Modelled from the spec: canals Pipeline._route_output is not part of
this repository.  Spec section 4.2 step e: for each outgoing edge, extract
the named output field and merge it into the destination buffered destination
input entry, creating the entry if absent and appending it at the buffer
tail when newly created.  An output that lacks the source field named on the edge is
not routed (otherwise cyclic pipelines could never drain). -/
def routeOutput (g : Graph) (name : String) (output : Dict) (buffer : Buffer) : Buffer :=
  (outEdges g name).foldl
    (fun b e =>
      match odGet output e.srcField with
      | some v => odSet b e.dst (odSet (odGetD b e.dst []) e.dstField v)
      | none => b)
    buffer

/-- Modelled from the spec: the LoopLimitExceeded error raised by the loop
guard (canals _check_max_loops is not part of this repository). -/
def loopErr (name : String) : PyExc :=
  ⟨"LoopLimitExceeded", "Maximum loops count exceeded for component " ++ name⟩

/-- The PipelineRuntimeError raised when a node waits and no other
component is left to run (pipeline.py lines 53 to 56). -/
def stuckErr (name : String) : PyExc :=
  ⟨"PipelineRuntimeError",
    sQuote ++ name ++ sQuote
      ++ " is stuck waiting for input, but there are no other components to run. "
      ++ "This is likely a Canals bug. Open an issue at https://github.com/deepset-ai/canals."⟩

/-- Per-run scheduler state: the inputs buffer, the visit counters, the
pipeline output and the trace of executed nodes (in execution order). -/
structure SchedState where
  buffer : Buffer
  visits : List (String × Nat)
  po : List (String × OutVal)
  tr : List String
deriving DecidableEq, Repr

/-- Result of one iteration of the execution loop. -/
inductive StepRes where
  | done (st : SchedState)
  | fail (e : PyExc) (st : SchedState)
  | cont (st : SchedState)
deriving DecidableEq, Repr

/-- One iteration of the pipeline execution loop of Pipeline.arun
(pipeline.py lines 34 to 85): pop the head of the buffer in FIFO order,
enforce the loop guard, compute the action, and wait, skip, remove or run
accordingly.  On run, the output of a terminal node overwrites its pipeline
output entry and the output of a non-terminal node is routed along its
outgoing edges. -/
def schedStep (g : Graph) (st : SchedState) : StepRes :=
  match st.buffer with
  | [] => .done st
  | (name, inputs) :: rest =>
    if maxVisitsOf g name ≤ odGetD st.visits name 0 then
      .fail (loopErr name) st
    else
      match calculateAction g name inputs rest st.visits with
      | .wait =>
        if rest.isEmpty then .fail (stuckErr name) st
        else .cont ⟨odSet rest name inputs, st.visits, st.po, st.tr⟩
      | .skip =>
        let visits1 := odSet st.visits name (odGetD st.visits name 0 + 1)
        .cont ⟨skipDownstream g name visits1 rest, visits1, st.po, st.tr⟩
      | .remove => .cont ⟨rest, st.visits, st.po, st.tr⟩
      | .run =>
        match compOf g name with
        | none => .fail ⟨"KeyError", name⟩ st
        | some c =>
          let r := arunComponent c name inputs (odGetD st.visits name 0)
          let visits1 := odSet st.visits name r.visits
          match r.res with
          | .exc e => .fail e ⟨rest, visits1, st.po, st.tr ++ [name]⟩
          | .ok out =>
            if (outEdges g name).isEmpty then
              .cont ⟨rest, visits1, odSet st.po name out, st.tr ++ [name]⟩
            else
              match out with
              | .dict d => .cont ⟨routeOutput g name d rest, visits1, st.po, st.tr ++ [name]⟩
              | .coroutine => .cont ⟨rest, visits1, st.po, st.tr ++ [name]⟩

/-- Outcome of driving the loop with a fuel bound. -/
inductive RunRes where
  | done (st : SchedState)
  | fail (e : PyExc) (st : SchedState)
  | fuel (st : SchedState)
deriving DecidableEq, Repr

/-- Drive the execution loop until the buffer drains, an error is raised,
or the fuel runs out. -/
def schedLoop (g : Graph) : Nat → SchedState → RunRes
  | 0, st => .fuel st
  | f + 1, st =>
    match schedStep g st with
    | .done st1 => .done st1
    | .fail e st1 => .fail e st1
    | .cont st1 => schedLoop g f st1

/-- Initial buffer of Pipeline.arun (pipeline.py lines 19 to 24): the
caller-supplied per-node input dicts with null-valued fields dropped. -/
def initBuffer (data : List (String × List (String × Option Val))) : Buffer :=
  data.map (fun p => (p.1, p.2.filterMap (fun q => q.2.map (fun v => (q.1, v)))))

/-- Pipeline.arun (pipeline.py lines 14 to 100): clear the visit counters,
build the inputs buffer from the caller data, and drive the execution
loop. -/
def arun (g : Graph) (data : List (String × List (String × Option Val))) (fuel : Nat) : RunRes :=
  schedLoop g fuel ⟨initBuffer data, [], [], []⟩

/-- A pure sync component emitting the field out with a constant value. -/
def constComp (v : Val) : Component :=
  .sync (fun _ _ => .ok [("out", v)])

/-- A pure sync component emitting the field out with its input x plus
one. -/
def succComp : Component :=
  .sync (fun _ d => .ok [("out", odGetD d "x" 0 + 1)])

/-- Linear pipeline A to B to C with initial input only at A. -/
def linG : Graph :=
  { nodes :=
      [ ⟨"A", constComp 1, 10⟩,
        ⟨"B", succComp, 10⟩,
        ⟨"C", succComp, 10⟩ ],
    edges :=
      [ ⟨"A", "out", "B", "x"⟩,
        ⟨"B", "out", "C", "x"⟩ ] }

/-- Self-referential cycle: node A feeds its own input x, with a
maximum-visits limit of three. -/
def loopG : Graph :=
  { nodes := [⟨"A", succComp, 3⟩],
    edges := [⟨"A", "out", "A", "x"⟩] }

/-- Cyclic graph with a terminal node: A feeds terminal node T on every
run and re-feeds itself exactly once, so T runs twice. -/
def termG : Graph :=
  { nodes :=
      [ ⟨"A",
          .sync (fun _ d =>
            if odGetD d "x" 0 == 0 then .ok [("o1", odGetD d "x" 0), ("o2", odGetD d "x" 0 + 1)]
            else .ok [("o1", odGetD d "x" 0)]),
          5⟩,
        ⟨"T", .sync (fun _ d => .ok [("r", odGetD d "t" 0)]), 5⟩ ],
    edges :=
      [ ⟨"A", "o1", "T", "t"⟩,
        ⟨"A", "o2", "A", "x"⟩ ] }

/-- Two-node graph where N needs an input produced by M. -/
def waitG : Graph :=
  { nodes :=
      [ ⟨"M", constComp 1, 10⟩,
        ⟨"N", succComp, 10⟩ ],
    edges := [⟨"M", "out", "N", "x"⟩] }

/-- Python str.split on a newline separator: every maximal (possibly
empty) run of non-newline characters, as a list of strings. -/
def pySplitNl : List Char → List (List Char)
  | [] => [[]]
  | c :: rest =>
    let r := pySplitNl rest
    if c = '\n' then [] :: r
    else
      match r with
      | [] => [[c]]
      | h :: t => (c :: h) :: t

/-- The lines of a string, Python split("\n") semantics. -/
def pyLines (s : String) : List String :=
  (pySplitNl s.toList).map (fun l => String.mk l)

/-- Python str.startswith. -/
def pyStartsWith (s pre : String) : Bool :=
  pre.toList.isPrefixOf s.toList

/-- Python slicing s[n:], dropping the first n characters. -/
def pyDrop (s : String) (n : Nat) : String :=
  String.mk (s.toList.drop n)

/-- Python str.strip with a single-character argument: remove that
character from both ends. -/
def pyStrip (s : String) (c : Char) : String :=
  String.mk (((s.toList.dropWhile (fun x => x = c)).reverse.dropWhile (fun x => x = c)).reverse)

/-- The non-empty lines of the generated text, as filtered by
get_action_and_input. -/
def psOf (llmOutput : String) : List String :=
  (pyLines llmOutput).filter (fun p => p != "")

/-- A failure of get_action_and_input: the deliberate ValueError parse
errors, or the IndexError from indexing an out-of-range line. -/
inductive ParseErr where
  | valueError (msg : String)
  | indexError
deriving DecidableEq, Repr

/-- Result of get_action_and_input. -/
inductive ParseRes where
  | ok (action actionInput : String)
  | err (e : ParseErr)
deriving DecidableEq, Repr

/-- The FINAL_ANSWER_ACTION marker of get_action_and_input. -/
def faMarker : String := "Final Answer: "

/-- The double quote character stripped from the action input. -/
def dQuote : Char := Char.ofNat 34

/-- MRKLAgent.get_action_and_input (mrkl_agent.py lines 259 to 273):
over the non-empty lines of the generated text, return the final answer
when the last line starts with Final Answer, otherwise demand an Action
Input last line immediately preceded by an Action line, stripping spaces
and double quotes from the action input; anything else raises. -/
def getActionAndInput (llmOutput : String) : ParseRes :=
  match (psOf llmOutput).reverse with
  | [] => .err .indexError
  | lastL :: restRev =>
    if pyStartsWith lastL "Final Answer" then
      .ok "Final Answer" (pyDrop lastL faMarker.toList.length)
    else if !pyStartsWith lastL "Action Input: " then
      .err (.valueError
        "The last line does not have an action input, something has gone terribly wrong.")
    else
      match restRev with
      | [] => .err .indexError
      | prevL :: _ =>
        if !pyStartsWith prevL "Action: " then
          .err (.valueError
            "The second to last line does not have an action, something has gone terribly wrong.")
        else
          .ok (pyDrop prevL "Action: ".toList.length)
            (pyStrip (pyStrip (pyDrop lastL "Action Input: ".toList.length) ' ') dQuote)

/-- Replace every occurrence of pat in cs by sub, left to right and
non-overlapping, with explicit fuel (Python str.replace semantics for a
non-empty pattern). -/
def replaceAllAux (pat sub : List Char) : Nat → List Char → List Char
  | 0, cs => cs
  | _ + 1, [] => []
  | f + 1, c :: rest =>
    if pat ≠ [] && pat.isPrefixOf (c :: rest) then
      sub ++ replaceAllAux pat sub f ((c :: rest).drop pat.length)
    else c :: replaceAllAux pat sub f rest

/-- Modelled from the spec: the prompt sent to the generation collaborator
is the transcript with the query substituted for the placeholder (the
PromptTemplate collaborator of mrkl_agent.py line 147 is external to this
repository); modelled as literal replacement of the placeholder. -/
def substQuery (notes query : String) : String :=
  String.mk (replaceAllAux "$query".toList query.toList notes.toList.length notes.toList)

/-- A fatal error of the agent loop. -/
inductive AgentErr where
  | parseErr (e : ParseErr)
  | unknownTool (action : String)
deriving DecidableEq, Repr

/-- Outcome of the agent loop under a fuel bound. -/
inductive AgentRes where
  | done (notes answer : String)
  | err (e : AgentErr)
  | fuel (notes : String)
deriving DecidableEq, Repr

/-- MRKLAgent.run (mrkl_agent.py lines 142 to 156): repeatedly prompt the
generation collaborator with the transcript, append the generated segment,
parse it, stop on Final Answer, otherwise look the action up in the tool
map (a missed lookup raises, the UnknownToolError of the spec taxonomy),
run the tool on the action input and append the observation. -/
def mrklRun (llm : String → String) (toolMap : List (String × (String → String)))
    (query : String) : Nat → String → AgentRes
  | 0, notes => .fuel notes
  | f + 1, notes =>
    let pred := llm (substQuery notes query)
    let notes1 := notes ++ pred ++ "\n"
    match getActionAndInput pred with
    | .err e => .err (.parseErr e)
    | .ok action input =>
      if action == "Final Answer" then .done notes1 input
      else
        match odGet toolMap action with
        | none => .err (.unknownTool action)
        | some tool =>
          mrklRun llm toolMap query f (notes1 ++ "Observation: " ++ tool input ++ "\nThought: ")

/-- Python str.join with a blank-line separator, as used for the prompt
template. -/
def joinNN : List String → String
  | [] => ""
  | [s] => s
  | s :: rest => s ++ ("\n\n" ++ joinNN rest)

/-- Python str.join with a newline separator. -/
def joinN : List String → String
  | [] => ""
  | [s] => s
  | s :: rest => s ++ ("\n" ++ joinN rest)

/-- The instruction prefix of the MRKL prompt template (mrkl_agent.py
line 127). -/
def mrklIntro : String :=
  "Answer the following questions as best as you can. You have access to the following tools:"

/-- The per-tool description block of the template (mrkl_agent.py
line 125). -/
def toolDescs (tools : List (String × String)) : String :=
  joinN (tools.map (fun t => t.1 ++ ": " ++ t.2))

/-- The comma-separated tool names of the template (mrkl_agent.py
line 124). -/
def toolNames (tools : List (String × String)) : String :=
  String.intercalate ", " (tools.map (fun t => t.1))

/-- The format instruction block of the template (mrkl_agent.py lines 128
to 138). -/
def formatInstructions (tools : List (String × String)) : String :=
  "Use the following format:\n\n"
    ++ "Question: the input question you must answer\n"
    ++ "Thought: you should always think about what to do\n"
    ++ "Action: the action to take, should be one of [" ++ toolNames tools ++ "]\n"
    ++ "Action Input: the input to the action\n"
    ++ "Observation: the result of the action\n"
    ++ "... (this Thought/Action/Action Input/Observation can repeat N times)\n"
    ++ "Thought: I now know the final answer\n"
    ++ "Final Answer: the final answer to the original input question"

/-- The suffix of the template, holding the literal query placeholder
(mrkl_agent.py line 139). -/
def mrklSuffix : String := "Begin!\nQuestion: $query\nThought: "

/-- The full prompt template built by the MRKLAgent constructor
(mrkl_agent.py line 140). -/
def mkTemplate (tools : List (String × String)) : String :=
  joinNN [mrklIntro, toolDescs tools, formatInstructions tools, mrklSuffix]

/-- Everything of the template that precedes the query placeholder. -/
def templateBeforeQuery (tools : List (String × String)) : String :=
  mrklIntro ++ ("\n\n" ++ (toolDescs tools ++ ("\n\n" ++ (formatInstructions tools
    ++ ("\n\n" ++ "Begin!\nQuestion: ")))))

/-- MRKLAgent.run started on the constructor-built template. -/
def mrklAgentRun (tools : List (String × String)) (llm : String → String)
    (toolMap : List (String × (String → String))) (query : String) (fuel : Nat) : AgentRes :=
  mrklRun llm toolMap query fuel (mkTemplate tools)

/-- The per-run local part of the scheduler state; the visit counters are
deliberately absent because Pipeline.arun keeps them on the shared graph
object. -/
structure RunLocal where
  buffer : Buffer
  po : List (String × OutVal)
  tr : List String
deriving DecidableEq, Repr

/-- One loop iteration of a run whose visit counters live on the shared
pipeline object: read the shared counters, step, and write them back. -/
structure SStep where
  vis : List (String × Nat)
  loc : RunLocal
  halted : Bool
deriving DecidableEq, Repr

/-- Execute one scheduler iteration of a run against the shared visit
counters, mirroring that arun reads and writes self.graph node visits. -/
def stepShared (g : Graph) (vis : List (String × Nat)) (r : RunLocal) : SStep :=
  match schedStep g ⟨r.buffer, vis, r.po, r.tr⟩ with
  | .done st => ⟨st.visits, ⟨st.buffer, st.po, st.tr⟩, true⟩
  | .fail _ st => ⟨st.visits, ⟨st.buffer, st.po, st.tr⟩, true⟩
  | .cont st => ⟨st.visits, ⟨st.buffer, st.po, st.tr⟩, false⟩

/-- Local state of a run of the self-cycle pipeline, at its start. -/
def run1Start : RunLocal := ⟨[("A", [("x", 0)])], [], []⟩

/-- Three iterations of run 1 on the self-cycle graph, then a second
concurrent arun begins on the same pipeline object and clears the shared
visit counters (pipeline.py line 15), after which run 1 performs its
fourth iteration against the cleared counters. -/
def c8Demo : SStep :=
  let s1 := stepShared loopG [] run1Start
  let s2 := stepShared loopG s1.vis s1.loc
  let s3 := stepShared loopG s2.vis s2.loc
  stepShared loopG [] s3.loc

/-- The same fourth iteration of run 1 when no second run has cleared the
shared counters. -/
def c8Solo : SStep :=
  let s1 := stepShared loopG [] run1Start
  let s2 := stepShared loopG s1.vis s1.loc
  let s3 := stepShared loopG s2.vis s2.loc
  stepShared loopG s3.vis s3.loc

/-- The run method of a pure sync component, used to count executions per
visit. -/
def syncPureRun : Nat → Dict → PyResult Dict :=
  fun _ _ => .ok [("y", 1)]

/-- A pure sync component used to count executions per visit. -/
def syncPure : Component :=
  .sync syncPureRun

/-- The run method of a sync component that raises TypeError on its first
call of a visit and returns normally on the second. -/
def flakySyncRun : Nat → Dict → PyResult Dict :=
  fun i _ => if i == 0 then .exc ⟨"TypeError", "boom"⟩ else .ok [("y", 7)]

/-- A sync component that raises TypeError on its first call of a visit
and returns normally on the second. -/
def flakySync : Component :=
  .sync flakySyncRun

/-- The body of an async component that raises TypeError when awaited. -/
def asyncTypeErrBody : Nat → Dict → PyResult Dict :=
  fun _ _ => .exc ⟨"TypeError", "boom"⟩

/-- An async component whose body raises TypeError when awaited. -/
def asyncTypeErr : Component :=
  .async asyncTypeErrBody

/-- The run method of a sync component that always raises a
ZeroDivisionError. -/
def failSyncRun : Nat → Dict → PyResult Dict :=
  fun _ _ => .exc ⟨"ZeroDivisionError", "division by zero"⟩

/-- A sync component that always raises a ZeroDivisionError. -/
def failSync : Component :=
  .sync failSyncRun

/-- A one-tool description list for the agent scenarios. -/
def demoTools : List (String × String) :=
  [("Search", "useful for questions about current events")]

/-- A scripted generation collaborator that immediately produces a final
answer. -/
def demoLlm : String → String := fun _ => "Final Answer: 42"

/-- A scripted generation collaborator that picks an action absent from
the tool map. -/
def demoLlmUnknown : String → String := fun _ => "Action: Frobnicate\nAction Input: x"

theorem strAppendAssoc (a b c : String) : a ++ b ++ c = a ++ (b ++ c) := by
  cases a; cases b; cases c
  simp only [HAppend.hAppend, Append.append, String.append]
  simp [List.append_assoc]

theorem odSet_append {α : Type} (m : List (String × α)) (k : String) (v : α)
    (h : ∀ p ∈ m, p.1 ≠ k) : odSet m k v = m ++ [(k, v)] := by
  induction m with
  | nil => rfl
  | cons p rest ih =>
    have hp : p.1 ≠ k := h p (List.mem_cons_self p rest)
    cases p with
    | mk k1 v1 =>
      simp only [odSet]
      rw [if_neg (by simpa using hp)]
      simp only [List.cons_append, List.cons.injEq, true_and]
      exact ih (fun q hq => h q (List.mem_cons_of_mem _ hq))

theorem odGet_odSet_self {α : Type} (m : List (String × α)) (k : String) (v : α) :
    odGet (odSet m k v) k = some v := by
  induction m with
  | nil => simp [odSet, odGet]
  | cons p rest ih =>
    cases p with
    | mk k1 v1 =>
      by_cases hk : k1 = k
      · subst hk
        simp [odSet, odGet]
      · simp only [odSet, beq_iff_eq, if_neg hk]
        simp only [odGet, beq_iff_eq, if_neg hk]
        exact ih

/-- C1: the scheduler services the inputs buffer in strict FIFO order:
each iteration pops the head entry, and a node whose action is wait is
re-enqueued at the tail with the same partial inputs without incrementing
its visit counter; consequently, for a linear graph A to B to C with
initial input only at A, the nodes execute in exactly the order A, B, C. -/
theorem c1_fifo_wait_reenqueue :
    (∀ (g : Graph) (name : String) (inputs : Dict) (rest : Buffer)
        (visits : List (String × Nat)) (po : List (String × OutVal)) (tr : List String),
      odGetD visits name 0 < maxVisitsOf g name →
      calculateAction g name inputs rest visits = .wait →
      rest ≠ [] →
      (∀ p ∈ rest, p.1 ≠ name) →
      schedStep g ⟨(name, inputs) :: rest, visits, po, tr⟩ =
        .cont ⟨rest ++ [(name, inputs)], visits, po, tr⟩) ∧
    arun linG [("A", [])] 10 =
      .done ⟨[], [("A", 1), ("B", 1), ("C", 1)], [("C", .dict [("out", 3)])],
        ["A", "B", "C"]⟩ := by
  constructor
  · intro g name inputs rest visits po tr hv hact hne hnk
    cases rest with
    | nil => exact absurd rfl hne
    | cons q rs =>
      simp only [schedStep]
      rw [if_neg (by omega), hact]
      simp only [List.isEmpty_cons, if_neg (by simp : ¬(false = true))]
      rw [odSet_append (q :: rs) name inputs hnk]
  · decide

/-- C1 witness: a node waiting for input from an unvisited upstream node
is re-enqueued at the tail of a non-empty buffer. -/
theorem c1_fifo_wait_reenqueue_witness :
    schedStep waitG ⟨[("N", []), ("M", [])], [], [], []⟩ =
      .cont ⟨[("M", []), ("N", [])], [], [], []⟩ :=
  c1_fifo_wait_reenqueue.left waitG "N" [] [("M", [])] [] [] []
    (by decide) (by decide) (by decide) (by decide)

/-- C2: if the action of the popped node is wait and the rest of the inputs
buffer is empty, the run fails immediately with a PipelineRuntimeError:
the waiting entry is never silently dropped and the loop does not spin
forever. -/
theorem c2_wait_deadlock :
    (∀ (g : Graph) (name : String) (inputs : Dict)
        (visits : List (String × Nat)) (po : List (String × OutVal)) (tr : List String),
      odGetD visits name 0 < maxVisitsOf g name →
      calculateAction g name inputs [] visits = .wait →
      schedStep g ⟨[(name, inputs)], visits, po, tr⟩ =
        .fail (stuckErr name) ⟨[(name, inputs)], visits, po, tr⟩) ∧
    (∀ (g : Graph) (name : String) (inputs : Dict)
        (visits : List (String × Nat)) (po : List (String × OutVal)) (tr : List String)
        (f : Nat),
      odGetD visits name 0 < maxVisitsOf g name →
      calculateAction g name inputs [] visits = .wait →
      schedLoop g (f + 1) ⟨[(name, inputs)], visits, po, tr⟩ =
        .fail (stuckErr name) ⟨[(name, inputs)], visits, po, tr⟩) := by
  have step : ∀ (g : Graph) (name : String) (inputs : Dict)
      (visits : List (String × Nat)) (po : List (String × OutVal)) (tr : List String),
      odGetD visits name 0 < maxVisitsOf g name →
      calculateAction g name inputs [] visits = .wait →
      schedStep g ⟨[(name, inputs)], visits, po, tr⟩ =
        .fail (stuckErr name) ⟨[(name, inputs)], visits, po, tr⟩ := by
    intro g name inputs visits po tr hv hact
    simp only [schedStep]
    rw [if_neg (by omega), hact]
    simp
  refine ⟨step, ?_⟩
  intro g name inputs visits po tr f hv hact
  simp only [schedLoop]
  rw [step g name inputs visits po tr hv hact]

/-- C2 witness: a node whose single upstream producer was never queued
waits on an empty buffer and the run fails at once with the stuck
PipelineRuntimeError. -/
theorem c2_wait_deadlock_witness :
    schedLoop waitG 5 ⟨[("N", [])], [], [], []⟩ =
      .fail (stuckErr "N") ⟨[("N", [])], [], [], []⟩ :=
  c2_wait_deadlock.right waitG "N" [] [] [] [] 4 (by decide) (by decide)

/-- C3: a popped node whose visit counter has already reached its
maximum-visits limit makes the scheduler fail with LoopLimitExceeded
before running the node; a node with limit three in a self-referential
cycle executes exactly three times and the fourth scheduling attempt
raises without executing it again (the execution trace in the failure
state still has three entries). -/
theorem c3_loop_limit :
    (∀ (g : Graph) (name : String) (inputs : Dict) (rest : Buffer)
        (visits : List (String × Nat)) (po : List (String × OutVal)) (tr : List String),
      maxVisitsOf g name ≤ odGetD visits name 0 →
      schedStep g ⟨(name, inputs) :: rest, visits, po, tr⟩ =
        .fail (loopErr name) ⟨(name, inputs) :: rest, visits, po, tr⟩) ∧
    arun loopG [("A", [("x", some 0)])] 10 =
      .fail (loopErr "A") ⟨[("A", [("x", 3)])], [("A", 3)], [], ["A", "A", "A"]⟩ := by
  constructor
  · intro g name inputs rest visits po tr hv
    simp only [schedStep]
    rw [if_pos hv]
  · decide

/-- C3 witness: with the visit counter of A already at its limit of
three, the scheduler raises LoopLimitExceeded instead of executing A. -/
theorem c3_loop_limit_witness :
    schedStep loopG ⟨[("A", [("x", 3)])], [("A", 3)], [], ["A", "A", "A"]⟩ =
      .fail (loopErr "A") ⟨[("A", [("x", 3)])], [("A", 3)], [], ["A", "A", "A"]⟩ :=
  c3_loop_limit.left loopG "A" [("x", 3)] [] [("A", 3)] [] ["A", "A", "A"] (by decide)

/-- C5: a successful execution of a node with zero outgoing edges stores
its output in the pipeline output under the name of the node through an
overwriting assignment; looking the name up after the assignment yields
exactly the newly stored value, and in the cyclic scenario the terminal
node T runs twice and the final pipeline output carries only its last
output. -/
theorem c5_terminal_overwrite :
    (∀ (g : Graph) (name : String) (f : Nat → Dict → PyResult Dict) (rest : Buffer)
        (visits : List (String × Nat)) (po : List (String × OutVal)) (tr : List String)
        (inputs d : Dict),
      odGetD visits name 0 < maxVisitsOf g name →
      calculateAction g name inputs rest visits = .run →
      compOf g name = some (.sync f) →
      f 0 inputs = .ok d →
      f 1 inputs = .ok d →
      outEdges g name = [] →
      schedStep g ⟨(name, inputs) :: rest, visits, po, tr⟩ =
        .cont ⟨rest, odSet visits name (odGetD visits name 0 + 1),
          odSet po name (.dict d), tr ++ [name]⟩) ∧
    (∀ (po : List (String × OutVal)) (name : String) (out : OutVal),
      odGet (odSet po name out) name = some out) ∧
    arun termG [("A", [("x", some 0)])] 10 =
      .done ⟨[], [("A", 2), ("T", 2)], [("T", .dict [("r", 1)])],
        ["A", "T", "A", "T"]⟩ := by
  refine ⟨?_, fun po name out => odGet_odSet_self po name out, by decide⟩
  intro g name f rest visits po tr inputs d hv hact hcomp h0 h1 hout
  simp only [schedStep]
  rw [if_neg (by omega), hact, hcomp]
  simp only [arunComponent, awaitFallback, h0, h1, hout]
  simp

/-- C5 witness: a terminal node whose pure component returns the dict
r maps to 1 has that output stored under its name, and the stored entry is
retrievable as the last written value. -/
theorem c5_terminal_overwrite_witness :
    schedStep termG ⟨[("T", [("t", 1)])], [("A", 2), ("T", 1)], [("T", .dict [("r", 0)])],
        ["A", "T", "A"]⟩ =
      .cont ⟨[], odSet [("A", 2), ("T", 1)] "T" 2,
        odSet [("T", .dict [("r", 0)])] "T" (.dict [("r", 1)]), ["A", "T", "A", "T"]⟩ ∧
    odGet (odSet [("T", OutVal.dict [("r", 0)])] "T" (.dict [("r", 1)])) "T" =
      some (.dict [("r", 1)]) :=
  ⟨c5_terminal_overwrite.left termG "T" (fun _ d => .ok [("r", odGetD d "t" 0)]) []
      [("A", 2), ("T", 1)] [("T", .dict [("r", 0)])] ["A", "T", "A"] [("t", 1)]
      [("r", 1)] (by decide) (by decide) (by rfl) (by decide) (by decide) (by decide),
    c5_terminal_overwrite.right.left [("T", OutVal.dict [("r", 0)])] "T" (.dict [("r", 1)])⟩

/-- C4 counterexample: the claim says any exception raised by node
execution is wrapped into a PipelineRuntimeError, propagated fatally, and
the node is not retried.  A sync component whose run raises TypeError on
the first call of the visit and succeeds on the second is retried by the
except-TypeError fallback: _arun_component calls run twice and returns the
second result with no error at all, so the raised TypeError is neither
wrapped nor propagated. -/
theorem c4_counterexample :
    flakySyncRun 0 [] = .exc ⟨"TypeError", "boom"⟩ ∧
    arunComponent (.sync flakySyncRun) "N" [] 0 =
      ⟨.ok (.dict [("y", 7)]), 1, 2, 2⟩ := by
  decide

/-- C4 as amended: the visit counter is incremented at invocation time in
every case, so a node whose execution throws still counts toward its loop
limit; any exception other than a TypeError from the first invocation is
wrapped into a PipelineRuntimeError whose message carries the node name
and the supplied inputs and is propagated without any further call; a
TypeError from the first invocation instead triggers one synchronous
fallback re-invocation, and only a failure of the fallback is wrapped. -/
theorem c4_amended :
    (∀ (c : Component) (name : String) (inputs : Dict) (v0 : Nat),
      (arunComponent c name inputs v0).visits = v0 + 1) ∧
    (∀ (f : Nat → Dict → PyResult Dict) (name : String) (inputs : Dict) (v0 : Nat) (e : PyExc),
      f 0 inputs = .exc e → e.excName ≠ "TypeError" →
      arunComponent (.sync f) name inputs v0 =
        ⟨.exc (pipeErr name inputs e), v0 + 1, 1, 1⟩) ∧
    (∀ (b : Nat → Dict → PyResult Dict) (name : String) (inputs : Dict) (v0 : Nat) (e : PyExc),
      b 0 inputs = .exc e → e.excName ≠ "TypeError" →
      arunComponent (.async b) name inputs v0 =
        ⟨.exc (pipeErr name inputs e), v0 + 1, 1, 1⟩) ∧
    (∀ (f : Nat → Dict → PyResult Dict) (name : String) (inputs : Dict) (v0 : Nat)
        (e e2 : PyExc),
      f 0 inputs = .exc e → e.excName = "TypeError" → f 1 inputs = .exc e2 →
      arunComponent (.sync f) name inputs v0 =
        ⟨.exc (pipeErr name inputs e2), v0 + 1, 2, 2⟩) ∧
    (∀ (name : String) (inputs : Dict) (e : PyExc),
      ∃ s, wrapMsg name inputs e = name ++ s) ∧
    (∀ (name : String) (inputs : Dict) (e : PyExc),
      ∃ s1 s2, wrapMsg name inputs e = s1 ++ (dictRepr inputs ++ s2)) := by
  refine ⟨?_, ?_, ?_, ?_, ?_, ?_⟩
  · intro c name inputs v0
    rcases h : awaitFallback c inputs with ⟨r, calls, execs⟩
    cases r <;> simp [arunComponent, h]
  · intro f name inputs v0 e h0 hne
    simp only [arunComponent, awaitFallback, h0]
    rw [if_neg (by simpa using hne)]
  · intro b name inputs v0 e h0 hne
    simp only [arunComponent, awaitFallback, h0]
    rw [if_neg (by simpa using hne)]
  · intro f name inputs v0 e e2 h0 hty h1
    simp only [arunComponent, awaitFallback, h0, h1]
    rw [if_pos (by simpa using hty)]
  · intro name inputs e
    refine ⟨" raised " ++ (sQuote ++ (e.excName ++ (": " ++ (e.msg ++ (sQuote
      ++ (" \nInputs: " ++ (dictRepr inputs
        ++ "\n\nSee the stacktrace above for more information."))))))), ?_⟩
    simp [wrapMsg, strAppendAssoc]
  · intro name inputs e
    refine ⟨name ++ (" raised " ++ (sQuote ++ (e.excName ++ (": " ++ (e.msg
      ++ (sQuote ++ " \nInputs: ")))))),
      "\n\nSee the stacktrace above for more information.", ?_⟩
    simp [wrapMsg, strAppendAssoc]

/-- C4 witness: a sync component that raises ZeroDivisionError has its
visit counter incremented, is called exactly once, and the error comes
back wrapped as a PipelineRuntimeError whose message starts with the node
name and embeds the rendered inputs. -/
theorem c4_amended_witness :
    (arunComponent failSync "N" [("x", 3)] 5).visits = 5 + 1 ∧
    arunComponent (.sync failSyncRun) "N" [("x", 3)] 5 =
      ⟨.exc (pipeErr "N" [("x", 3)] ⟨"ZeroDivisionError", "division by zero"⟩), 5 + 1, 1, 1⟩ ∧
    (∃ s, wrapMsg "N" [("x", 3)] ⟨"ZeroDivisionError", "division by zero"⟩ = "N" ++ s) ∧
    (∃ s1 s2, wrapMsg "N" [("x", 3)] ⟨"ZeroDivisionError", "division by zero"⟩ =
      s1 ++ (dictRepr [("x", 3)] ++ s2)) :=
  ⟨c4_amended.left failSync "N" [("x", 3)] 5,
    c4_amended.right.left failSyncRun "N" [("x", 3)] 5
      ⟨"ZeroDivisionError", "division by zero"⟩ (by decide) (by decide),
    c4_amended.right.right.right.right.left "N" [("x", 3)]
      ⟨"ZeroDivisionError", "division by zero"⟩,
    c4_amended.right.right.right.right.right "N" [("x", 3)]
      ⟨"ZeroDivisionError", "division by zero"⟩⟩

/-- C9 counterexample: the claim says a plain synchronous component is
executed exactly once per visit.  In fact the awaited expression calls the
sync run method (executing its body), awaiting the returned dict raises
TypeError, and the fallback calls run again: one visit of a pure sync
component calls run twice and executes its body twice, not once. -/
theorem c9_counterexample :
    syncPureRun 0 [] = .ok [("y", 1)] ∧
    arunComponent (.sync syncPureRun) "N" [] 0 = ⟨.ok (.dict [("y", 1)]), 1, 2, 2⟩ ∧
    (2 : Nat) ≠ 1 := by
  decide

/-- C9 as amended: when awaiting the run call raises TypeError the code
falls back to a second synchronous call; hence a plain synchronous
component is executed twice per visit and the output of the second call is
returned, while a TypeError raised from inside a genuinely awaitable
component body causes run to be called a second time without being
awaited, so the visit yields an un-executed coroutine object instead of
failing immediately. -/
theorem c9_amended :
    (∀ (f : Nat → Dict → PyResult Dict) (name : String) (inputs : Dict) (v0 : Nat)
        (d0 d1 : Dict),
      f 0 inputs = .ok d0 → f 1 inputs = .ok d1 →
      arunComponent (.sync f) name inputs v0 = ⟨.ok (.dict d1), v0 + 1, 2, 2⟩) ∧
    (∀ (b : Nat → Dict → PyResult Dict) (name : String) (inputs : Dict) (v0 : Nat)
        (e : PyExc),
      b 0 inputs = .exc e → e.excName = "TypeError" →
      arunComponent (.async b) name inputs v0 = ⟨.ok .coroutine, v0 + 1, 2, 1⟩) := by
  constructor
  · intro f name inputs v0 d0 d1 h0 h1
    simp only [arunComponent, awaitFallback, h0, h1]
  · intro b name inputs v0 e h0 hty
    simp only [arunComponent, awaitFallback, h0]
    rw [if_pos (by simpa using hty)]

/-- C9 witness: the pure sync component is called twice within one visit
and the second output is returned, and the async component whose body
raises TypeError ends the visit with an un-awaited coroutine after a
second run call. -/
theorem c9_amended_witness :
    arunComponent (.sync syncPureRun) "M" [("x", 0)] 3 =
      ⟨.ok (.dict [("y", 1)]), 3 + 1, 2, 2⟩ ∧
    arunComponent (.async asyncTypeErrBody) "M" [("x", 0)] 3 =
      ⟨.ok .coroutine, 3 + 1, 2, 1⟩ :=
  ⟨c9_amended.left syncPureRun "M" [("x", 0)] 3 [("y", 1)] [("y", 1)]
      (by decide) (by decide),
    c9_amended.right asyncTypeErrBody "M" [("x", 0)] 3 ⟨"TypeError", "boom"⟩
      (by decide) (by decide)⟩

/-- C8 counterexample: the claim says each concurrent run gets its own
visit counters so runs cannot corrupt each other.  The visit counters
live on the shared pipeline graph and arun clears them at its start: if a
second run starts (clearing the counters) after three iterations of the
first run on the self-cycle graph with limit three, the first run
executes its node a fourth time instead of raising LoopLimitExceeded,
unlike the undisturbed continuation of the same run. -/
theorem c8_counterexample :
    c8Demo = ⟨[("A", 1)], ⟨[("A", [("x", 4)])], [], ["A", "A", "A", "A"]⟩, false⟩ ∧
    c8Solo = ⟨[("A", 3)], ⟨[("A", [("x", 3)])], [], ["A", "A", "A"]⟩, true⟩ ∧
    c8Demo.loc.tr ≠ c8Solo.loc.tr := by
  decide

/-- C8 as amended: visit counters are stored on the pipeline object
shared between runs and each arun resets those shared counters at its
start; a concurrent arun on the same pipeline can therefore reset another
counters of another run mid-flight and defeat its loop guard, as the interleaving
where a second run clears the counters after three iterations of the
first shows: the first run then performs a fourth execution, while the
solo run fails with LoopLimitExceeded after exactly three. -/
theorem c8_amended :
    c8Demo.loc.tr = ["A", "A", "A", "A"] ∧
    c8Demo.halted = false ∧
    c8Solo.halted = true ∧
    arun loopG [("A", [("x", some 0)])] 10 =
      .fail (loopErr "A") ⟨[("A", [("x", 3)])], [("A", 3)], [], ["A", "A", "A"]⟩ := by
  decide

/-- C6: get_action_and_input over the non-empty lines of the generated
text: a final-answer last line yields the pair Final Answer with the text
after the marker (42 for text ending in Final Answer: 42); an Action
Input last line immediately preceded by an Action line yields the action
pair (Search with weather today in the example); a missing Action line is
a parse error; and every successful parse comes from one of the two
accepted shapes, so no action is ever silently defaulted. -/
theorem c6_parse_contract :
    getActionAndInput "Thought: done\nFinal Answer: 42" = .ok "Final Answer" "42" ∧
    getActionAndInput "Thought: x\nAction: Search\nAction Input: weather today" =
      .ok "Search" "weather today" ∧
    getActionAndInput "Thought: hm\nAction Input: x" =
      .err (.valueError
        "The second to last line does not have an action, something has gone terribly wrong.") ∧
    (∀ (s lastL : String) (restRev : List String),
      (psOf s).reverse = lastL :: restRev →
      pyStartsWith lastL "Final Answer" = true →
      getActionAndInput s = .ok "Final Answer" (pyDrop lastL faMarker.toList.length)) ∧
    (∀ (s a i : String), getActionAndInput s = .ok a i →
      ∃ lastL restRev, (psOf s).reverse = lastL :: restRev ∧
        ((pyStartsWith lastL "Final Answer" = true ∧ a = "Final Answer") ∨
          (pyStartsWith lastL "Action Input: " = true ∧
            ∃ prevL rr, restRev = prevL :: rr ∧ pyStartsWith prevL "Action: " = true ∧
              a = pyDrop prevL "Action: ".toList.length))) := by
  refine ⟨by decide, by decide, by decide, ?_, ?_⟩
  · intro s lastL restRev hrev hfa
    simp [getActionAndInput, hrev, hfa]
  · intro s a i h
    unfold getActionAndInput at h
    cases hrev : (psOf s).reverse with
    | nil => rw [hrev] at h; simp at h
    | cons lastL restRev =>
      rw [hrev] at h
      by_cases hfa : pyStartsWith lastL "Final Answer" = true
      · simp only [hfa, if_pos] at h
        simp only [ParseRes.ok.injEq] at h
        exact ⟨lastL, restRev, rfl, .inl ⟨hfa, h.1.symm⟩⟩
      · by_cases hai : pyStartsWith lastL "Action Input: " = true
        · cases restRev with
          | nil => simp [hfa, hai] at h
          | cons prevL rr =>
            by_cases hac : pyStartsWith prevL "Action: " = true
            · simp only [hfa, hai, hac, Bool.not_true, Bool.false_eq_true, if_false,
                Bool.not_false, if_true, ParseRes.ok.injEq] at h
              exact ⟨lastL, prevL :: rr, rfl,
                .inr ⟨hai, prevL, rr, rfl, hac, h.1.symm⟩⟩
            · simp [hfa, hai, hac] at h
        · simp [hfa, hai] at h

/-- C6 witness: text consisting of a single final-answer line parses to
the final answer, and the action example parses through the Action
shape. -/
theorem c6_parse_contract_witness :
    getActionAndInput "Final Answer: 42" =
      .ok "Final Answer" (pyDrop "Final Answer: 42" faMarker.toList.length) ∧
    (∃ lastL restRev,
      (psOf "Action: Search\nAction Input: weather today").reverse = lastL :: restRev ∧
      ((pyStartsWith lastL "Final Answer" = true ∧ "Search" = "Final Answer") ∨
        (pyStartsWith lastL "Action Input: " = true ∧
          ∃ prevL rr, restRev = prevL :: rr ∧ pyStartsWith prevL "Action: " = true ∧
            "Search" = pyDrop prevL "Action: ".toList.length))) :=
  ⟨c6_parse_contract.right.right.right.left "Final Answer: 42" "Final Answer: 42" []
      (by decide) (by decide),
    c6_parse_contract.right.right.right.right "Action: Search\nAction Input: weather today"
      "Search" "weather today" (by decide)⟩

/-- C7: in the ACT step of the agent, a parsed action name that is not present
in the tool map makes the run fail with the unknown-tool error: there is
no fallback tool and no silently guessed action. -/
theorem c7_unknown_tool :
    ∀ (llm : String → String) (toolMap : List (String × (String → String)))
      (query notes : String) (f : Nat) (a i : String),
      getActionAndInput (llm (substQuery notes query)) = .ok a i →
      a ≠ "Final Answer" →
      odGet toolMap a = none →
      mrklRun llm toolMap query (f + 1) notes = .err (.unknownTool a) := by
  intro llm toolMap query notes f a i hp hne hmap
  simp only [mrklRun, hp]
  rw [if_neg (by simpa using hne), hmap]

/-- C7 witness: a scripted generation collaborator that picks the action
Frobnicate against an empty tool map makes the run fail with the
unknown-tool error for Frobnicate. -/
theorem c7_unknown_tool_witness :
    mrklRun demoLlmUnknown [] "q" 1 (mkTemplate demoTools) =
      .err (.unknownTool "Frobnicate") :=
  c7_unknown_tool demoLlmUnknown [] "q" (mkTemplate demoTools) 0 "Frobnicate" "x"
    (by decide) (by decide) (by rfl)

theorem mrklRun_done_extends :
    ∀ (fuel : Nat) (llm : String → String) (toolMap : List (String × (String → String)))
      (query notes notes1 ans : String),
      mrklRun llm toolMap query fuel notes = .done notes1 ans →
      ∃ r, notes1 = notes ++ r := by
  intro fuel
  induction fuel with
  | zero =>
    intro llm toolMap query notes notes1 ans h
    simp [mrklRun] at h
  | succ f ih =>
    intro llm toolMap query notes notes1 ans h
    simp only [mrklRun] at h
    cases hp : getActionAndInput (llm (substQuery notes query)) with
    | err e => simp only [hp] at h; exact absurd h (by simp)
    | ok a i =>
      simp only [hp] at h
      by_cases hfa : (a == "Final Answer") = true
      · rw [if_pos hfa] at h
        simp only [AgentRes.done.injEq] at h
        exact ⟨llm (substQuery notes query) ++ "\n", by rw [← h.1, strAppendAssoc]⟩
      · rw [if_neg hfa] at h
        cases hm : odGet toolMap a with
        | none => simp only [hm] at h; exact absurd h (by simp)
        | some tool =>
          simp only [hm] at h
          obtain ⟨r, hr⟩ := ih llm toolMap query _ notes1 ans h
          refine ⟨llm (substQuery notes query) ++ ("\n" ++ ("Observation: "
            ++ (tool i ++ ("\nThought: " ++ r)))), ?_⟩
          rw [hr]
          simp only [strAppendAssoc]

theorem mkTemplate_decomp (tools : List (String × String)) :
    mkTemplate tools = templateBeforeQuery tools ++ ("$query" ++ "\nThought: ") := by
  have hsuf : mrklSuffix = "Begin!\nQuestion: " ++ ("$query" ++ "\nThought: ") := by decide
  simp [mkTemplate, joinNN, templateBeforeQuery, hsuf, strAppendAssoc]

/-- C10: the transcript returned by the agent run on termination is the
accumulated notes extending the constructor-built template, and it still
contains the literal query placeholder from the template suffix: the
query is substituted only into the prompt handed to the generation
collaborator, never into the returned transcript. -/
theorem c10_query_placeholder :
    ∀ (tools : List (String × String)) (llm : String → String)
      (toolMap : List (String × (String → String))) (query : String) (fuel : Nat)
      (notes ans : String),
      mrklAgentRun tools llm toolMap query fuel = .done notes ans →
      (∃ r, notes = mkTemplate tools ++ r) ∧
      (∃ s, notes = templateBeforeQuery tools ++ ("$query" ++ s)) := by
  intro tools llm toolMap query fuel notes ans h
  obtain ⟨r, hr⟩ := mrklRun_done_extends fuel llm toolMap query (mkTemplate tools) notes ans h
  refine ⟨⟨r, hr⟩, "\nThought: " ++ r, ?_⟩
  rw [hr, mkTemplate_decomp]
  simp only [strAppendAssoc]

/-- C10 witness: a run that terminates at once with the final answer 42
returns a transcript extending the template, with the query placeholder
still in it. -/
theorem c10_query_placeholder_witness :
    (∃ r, (mkTemplate demoTools ++ "Final Answer: 42") ++ "\n" = mkTemplate demoTools ++ r) ∧
    (∃ s, (mkTemplate demoTools ++ "Final Answer: 42") ++ "\n" =
      templateBeforeQuery demoTools ++ ("$query" ++ s)) :=
  c10_query_placeholder demoTools demoLlm [] "q" 3
    ((mkTemplate demoTools ++ "Final Answer: 42") ++ "\n") "42" (by decide)
